import Mathlib

/-!
# College Media: the authentication routes

A shallow embedding of `backend/routes/auth.js`: the four handlers
`/register`, `/login`, `/forgot-password` and `/reset-password`, run over an
explicit world (the durable collection and the in-memory collection), an
explicit request context (connectivity flag, clock, salt entropy, environment
secret), and a record of every store call and console line a handler makes.

The libraries the handlers call are modelled as follows.

* `bcryptjs` is a parameter (`Bcrypt`): `genSalt`, `hash`, `compare` are
  arbitrary functions, and the theorems that need a property of the hasher
  state it as a hypothesis.
* `jsonwebtoken` is modelled symbolically: a string is either not a JWS at
  all (`Token.raw`) or a JWS carrying a payload, an issue time, an expiry
  time and the key under which its signature verifies (`Token.jws`).
  `jwt.verify` accepts exactly the JWS tokens whose key is the secret it is
  given and whose expiry lies strictly in the future.
* `UserMongo` (a mongoose model) is modelled by its documented query
  behaviour over a list of documents.
* `UserMock` (`backend/mockdb/userDB.js`) is not part of the sources at hand
  and is modelled from the specification.
-/

namespace CollegeMedia

/-! ### Data model -/

/-- Opaque user identity (`_id`). Identities are objects or non-empty
strings, hence never falsy: `user._id || user.id` evaluates to `user._id`. -/
structure UserId where
  n : Nat
deriving DecidableEq, Repr

/-- A stored user record. `password` is whatever value the store was given
for the password field. -/
structure User where
  _id : UserId
  username : String
  email : String
  password : String
  firstName : Option String
  lastName : Option String
  profilePicture : Option String
  bio : Option String
deriving DecidableEq, Repr

/-- The object literal given to `new UserMongo({...})` and to
`UserMock.create({...})`: `{ username, email, password, firstName, lastName }`. -/
structure UserFields where
  username : String
  email : String
  password : String
  firstName : Option String
  lastName : Option String
deriving DecidableEq, Repr

/-! ### Libraries: bcryptjs and jsonwebtoken -/

/-- The three `bcryptjs` entry points used by the routes. `genSalt rounds e`
is the salt drawn for cost `rounds` when the random source yields `e`. -/
structure Bcrypt where
  genSalt : Nat → Nat → String
  hash : String → String → String
  compare : String → String → Bool

/-- The claims the routes put in a token: `{ userId }` for a session token,
`{ userId, email }` for a reset token. -/
structure Payload where
  userId : UserId
  email : Option String
deriving DecidableEq, Repr

/-- A token string, seen symbolically. -/
inductive Token where
  | raw (s : String)
  | jws (payload : Payload) (iat : Nat) (exp : Nat) (key : String)
deriving DecidableEq, Repr

/-- Seconds in `'7d'`. -/
def sevenDays : Nat := 7 * 24 * 60 * 60

/-- Seconds in `'1h'`. -/
def oneHour : Nat := 60 * 60

/-- The call `jwt.sign(payload, secret, { expiresIn })` made at time `now`
(seconds): `iat = now`, `exp = now + expiresIn`. -/
def jwtSign (payload : Payload) (secret : String) (expiresIn : Nat) (now : Nat) : Token :=
  Token.jws payload now (now + expiresIn) secret

/-- The call `jwt.verify(token, secret)` made at time `now`: `none` stands for
a thrown error (malformed token, signature not valid under `secret`, or
`now >= exp`), `some p` for the decoded payload. -/
def jwtVerify (token : Token) (secret : String) (now : Nat) : Option Payload :=
  match token with
  | Token.raw _ => none
  | Token.jws payload _ exp key =>
    if key = secret then
      if now < exp then some payload else none
    else none

/-- The value of `process.env.JWT_SECRET || 'college_media_secret_key'`. -/
def JWT_SECRET (envSecret : Option String) : String :=
  match envSecret with
  | some s => if s = "" then "college_media_secret_key" else s
  | none => "college_media_secret_key"

/-! ### Request context, world, results -/

/-- The object stored under `'dbConnection'` on the app. -/
structure DbConnection where
  useMongoDB : Bool
deriving DecidableEq, Repr

/-- Everything a handler reads besides the request body and the stores. -/
structure Ctx where
  dbConnection : Option DbConnection
  envSecret : Option String
  now : Nat
  entropy : Nat
deriving DecidableEq, Repr

/-- The test `dbConnection && dbConnection.useMongoDB`. -/
def useMongo (ctx : Ctx) : Bool :=
  match ctx.dbConnection with
  | some c => c.useMongoDB
  | none => false

/-- The two collections. -/
structure World where
  mongo : List User
  mock : List User
deriving DecidableEq, Repr

/-- The collection the connectivity flag selects. -/
def World.selected (w : World) (ctx : Ctx) : List User :=
  if useMongo ctx then w.mongo else w.mock

/-- The `data` member of a response envelope. -/
inductive Data where
  | null
  | registered (id : UserId) (username email : String) (firstName lastName : Option String)
      (token : Token)
  | loggedIn (id : UserId) (username email : String) (firstName lastName : Option String)
      (profilePicture bio : Option String) (token : Token)
deriving DecidableEq, Repr

/-- The tokens a `data` value carries. -/
def Data.tokens : Data → List Token
  | Data.null => []
  | Data.registered _ _ _ _ _ token => [token]
  | Data.loggedIn _ _ _ _ _ _ _ token => [token]

/-- The status and JSON body `{ success, data, message }` sent. -/
structure Response where
  status : Nat
  success : Bool
  data : Data
  message : String
deriving DecidableEq, Repr

/-- Failure kinds a store function can throw. -/
inductive ErrorKind where
  | DuplicateUser
  | NotFound
deriving DecidableEq, Repr

/-- A thrown `Error`. -/
structure JsError where
  kind : ErrorKind
  message : String
deriving DecidableEq, Repr

/-- How a handler ends: it sends a response, or hands an error to `next`. -/
inductive Outcome where
  | responded (r : Response)
  | fault (e : JsError)
deriving DecidableEq, Repr

/-- One call on a store, with the arguments the handler passed. -/
inductive StoreCall where
  | mongoFindOneEmailOrUsername (email username : String)
  | mongoFindOneEmail (email : String)
  | mongoSave (doc : UserFields)
  | mongoFindByIdAndUpdate (id : UserId) (password : String)
  | mockCreate (fields : UserFields)
  | mockFindByEmail (email : String)
  | mockUpdatePassword (id : UserId) (hashedPassword : String)
deriving DecidableEq, Repr

/-- The password value a call hands to the store, for the calls that write one. -/
def StoreCall.writtenPassword : StoreCall → Option String
  | StoreCall.mongoSave doc => some doc.password
  | StoreCall.mongoFindByIdAndUpdate _ password => some password
  | StoreCall.mockCreate fields => some fields.password
  | StoreCall.mockUpdatePassword _ hashedPassword => some hashedPassword
  | _ => none

/-- What a handler run leaves behind. `logged` holds the reset tokens written
by `console.log('Password reset token for', email, ':', resetToken)`. -/
structure Result where
  outcome : Outcome
  world : World
  calls : List StoreCall
  logged : List (String × Token)
deriving DecidableEq, Repr

/-- The call `res.status(status).json({ success, data, message })`. -/
def respond (status : Nat) (success : Bool) (data : Data) (message : String) : Outcome :=
  Outcome.responded { status := status, success := success, data := data, message := message }

/-! ### The durable store (UserMongo) and the in-memory store (UserMock) -/

/-- Modelled from the spec: how a store allots the `_id` of a new record is
not in the sources at hand (ObjectId generation, `mockdb/userDB.js`); the spec
asks for an opaque unique ID, here one more than the largest identity held,
which no record of the collection carries. -/
def freshId (users : List User) : UserId :=
  ⟨(users.map (fun u => u._id.n)).foldr max 0 + 1⟩

/-- Modelled from the spec: the schema of `backend/models/User.js` is missing;
a document built by `new UserMongo(fields)` carries the fields given, a fresh
`_id`, and no profile picture or bio. -/
def UserMongo.new (users : List User) (fields : UserFields) : User :=
  { _id := freshId users, username := fields.username, email := fields.email,
    password := fields.password, firstName := fields.firstName, lastName := fields.lastName,
    profilePicture := none, bio := none }

/-- The query `UserMongo.findOne({ $or: [{ email }, { username }] })`. -/
def UserMongo.findOneEmailOrUsername (users : List User) (email username : String) :
    Option User :=
  users.find? (fun u => decide (u.email = email) || decide (u.username = username))

/-- The query `UserMongo.findOne({ email })`. -/
def UserMongo.findOneEmail (users : List User) (email : String) : Option User :=
  users.find? (fun u => decide (u.email = email))

/-- The call `newUser.save()`: the document joins the collection. -/
def UserMongo.save (users : List User) (doc : User) : List User :=
  users ++ [doc]

/-- Replace the password of the first record whose `_id` is `id`. -/
def setPasswordById : List User → UserId → String → List User
  | [], _, _ => []
  | u :: us, id, password =>
    if u._id = id then { u with password := password } :: us
    else u :: setPasswordById us id password

/-- The call `UserMongo.findByIdAndUpdate(id, { password })`: the first
matching document is updated; when none matches the call resolves to `null`
and the collection is left as it was. -/
def UserMongo.findByIdAndUpdate (users : List User) (id : UserId) (password : String) :
    List User :=
  setPasswordById users id password

/-- Modelled from the spec: `UserMock.findByEmail` of `backend/mockdb/userDB.js`
is missing; `findByEmail(email) -> User | None`. -/
def UserMock.findByEmail (users : List User) (email : String) : Option User :=
  users.find? (fun u => decide (u.email = email))

/-- Modelled from the spec: `UserMock.create` of `backend/mockdb/userDB.js` is
missing; `create(fields) -> User` fails with `DuplicateUser` (message
"User with this email or username already exists") if the email or the
username already exists, and otherwise stores the record with the password
hashed at work factor 10 (the route passes the plaintext and notes that the
password is hashed in the create function). -/
def UserMock.create (B : Bcrypt) (entropy : Nat) (users : List User) (fields : UserFields) :
    Except JsError (User × List User) :=
  if users.any (fun u => decide (u.email = fields.email) || decide (u.username = fields.username))
  then
    Except.error
      { kind := ErrorKind.DuplicateUser,
        message := "User with this email or username already exists" }
  else
    let hashedPassword := B.hash fields.password (B.genSalt 10 entropy)
    let newUser : User :=
      { _id := freshId users, username := fields.username, email := fields.email,
        password := hashedPassword, firstName := fields.firstName,
        lastName := fields.lastName, profilePicture := none, bio := none }
    Except.ok (newUser, users ++ [newUser])

/-- Modelled from the spec: `UserMock.updatePassword` of
`backend/mockdb/userDB.js` is missing; `updatePasswordHash(id, newHash) -> void`
fails with `NotFound` if no such user (the spec fixes no message text). -/
def UserMock.updatePassword (users : List User) (id : UserId) (hashedPassword : String) :
    Except JsError (List User) :=
  if users.any (fun u => decide (u._id = id)) then
    Except.ok (setPasswordById users id hashedPassword)
  else
    Except.error { kind := ErrorKind.NotFound, message := "NotFound" }

/-! ### JavaScript helpers and request bodies -/

/-- Whether `sub` occurs in `s` as a contiguous run. -/
def includesChars : List Char → List Char → Bool
  | [], sub => sub.isEmpty
  | c :: cs, sub => sub.isPrefixOf (c :: cs) || includesChars cs sub

/-- The method call `s.includes(sub)`. -/
def includes (s sub : String) : Bool :=
  includesChars s.data sub.data

/-- The test `!email` / `!newPassword` on a body member: absent or empty. -/
def falsyString : Option String → Bool
  | none => true
  | some s => decide (s = "")

/-- The test `!token` on a body member: absent or the empty string. -/
def falsyToken : Option Token → Bool
  | none => true
  | some (Token.raw s) => decide (s = "")
  | some (Token.jws _ _ _ _) => false

/-- Body of `/login`, after the validation middleware. -/
structure LoginBody where
  email : String
  password : String
deriving DecidableEq, Repr

/-- Body of `/forgot-password`. -/
structure ForgotBody where
  email : Option String
deriving DecidableEq, Repr

/-- Body of `/reset-password`. -/
structure ResetBody where
  token : Option Token
  newPassword : Option String
deriving DecidableEq, Repr

/-! ### The four handlers -/

/-- Handler of `POST /register` (body after the validation middleware). -/
def register (B : Bcrypt) (ctx : Ctx) (w : World) (body : UserFields) : Result :=
  if useMongo ctx then
    match UserMongo.findOneEmailOrUsername w.mongo body.email body.username with
    | some _ =>
      { outcome := respond 400 false Data.null "User with this email or username already exists",
        world := w,
        calls := [StoreCall.mongoFindOneEmailOrUsername body.email body.username],
        logged := [] }
    | none =>
      let salt := B.genSalt 10 ctx.entropy
      let hashedPassword := B.hash body.password salt
      let doc : UserFields :=
        { username := body.username, email := body.email, password := hashedPassword,
          firstName := body.firstName, lastName := body.lastName }
      let newUser := UserMongo.new w.mongo doc
      let token := jwtSign { userId := newUser._id, email := none } (JWT_SECRET ctx.envSecret)
        sevenDays ctx.now
      { outcome := respond 201 true
          (Data.registered newUser._id newUser.username newUser.email newUser.firstName
            newUser.lastName token)
          "User registered successfully",
        world := { w with mongo := UserMongo.save w.mongo newUser },
        calls := [StoreCall.mongoFindOneEmailOrUsername body.email body.username,
          StoreCall.mongoSave doc],
        logged := [] }
  else
    let fields : UserFields :=
      { username := body.username, email := body.email, password := body.password,
        firstName := body.firstName, lastName := body.lastName }
    match UserMock.create B ctx.entropy w.mock fields with
    | Except.ok (newUser, mock) =>
      let token := jwtSign { userId := newUser._id, email := none } (JWT_SECRET ctx.envSecret)
        sevenDays ctx.now
      { outcome := respond 201 true
          (Data.registered newUser._id newUser.username newUser.email newUser.firstName
            newUser.lastName token)
          "User registered successfully",
        world := { w with mock := mock },
        calls := [StoreCall.mockCreate fields],
        logged := [] }
    | Except.error error =>
      if includes error.message "already exists" then
        { outcome := respond 400 false Data.null error.message,
          world := w, calls := [StoreCall.mockCreate fields], logged := [] }
      else
        { outcome := Outcome.fault error,
          world := w, calls := [StoreCall.mockCreate fields], logged := [] }

/-- Handler of `POST /login` (body after the validation middleware). -/
def login (B : Bcrypt) (ctx : Ctx) (w : World) (body : LoginBody) : Result :=
  if useMongo ctx then
    match UserMongo.findOneEmail w.mongo body.email with
    | none =>
      { outcome := respond 400 false Data.null "Invalid credentials",
        world := w, calls := [StoreCall.mongoFindOneEmail body.email], logged := [] }
    | some user =>
      let isMatch := B.compare body.password user.password
      if !isMatch then
        { outcome := respond 400 false Data.null "Invalid credentials",
          world := w, calls := [StoreCall.mongoFindOneEmail body.email], logged := [] }
      else
        let token := jwtSign { userId := user._id, email := none } (JWT_SECRET ctx.envSecret)
          sevenDays ctx.now
        { outcome := respond 200 true
            (Data.loggedIn user._id user.username user.email user.firstName user.lastName
              user.profilePicture user.bio token)
            "Login successful",
          world := w, calls := [StoreCall.mongoFindOneEmail body.email], logged := [] }
  else
    match UserMock.findByEmail w.mock body.email with
    | none =>
      { outcome := respond 400 false Data.null "Invalid credentials",
        world := w, calls := [StoreCall.mockFindByEmail body.email], logged := [] }
    | some user =>
      let isMatch := B.compare body.password user.password
      if !isMatch then
        { outcome := respond 400 false Data.null "Invalid credentials",
          world := w, calls := [StoreCall.mockFindByEmail body.email], logged := [] }
      else
        let token := jwtSign { userId := user._id, email := none } (JWT_SECRET ctx.envSecret)
          sevenDays ctx.now
        { outcome := respond 200 true
            (Data.loggedIn user._id user.username user.email user.firstName user.lastName
              user.profilePicture user.bio token)
            "Login successful",
          world := w, calls := [StoreCall.mockFindByEmail body.email], logged := [] }

/-- Handler of `POST /forgot-password`. The payload member
`user._id || user.id` is `user._id`, identities never being falsy. -/
def forgotPassword (ctx : Ctx) (w : World) (body : ForgotBody) : Result :=
  if falsyString body.email then
    { outcome := respond 400 false Data.null "Email is required",
      world := w, calls := [], logged := [] }
  else
    let email := body.email.getD ""
    let user :=
      if useMongo ctx then UserMongo.findOneEmail w.mongo email
      else UserMock.findByEmail w.mock email
    let call :=
      if useMongo ctx then StoreCall.mongoFindOneEmail email
      else StoreCall.mockFindByEmail email
    let logged :=
      match user with
      | some user =>
        let resetToken := jwtSign { userId := user._id, email := some user.email }
          (JWT_SECRET ctx.envSecret) oneHour ctx.now
        [(email, resetToken)]
      | none => []
    { outcome := respond 200 true Data.null
        "If an account exists with this email, a password reset link has been sent.",
      world := w, calls := [call], logged := logged }

/-- Handler of `POST /reset-password`. -/
def resetPassword (B : Bcrypt) (ctx : Ctx) (w : World) (body : ResetBody) : Result :=
  if falsyToken body.token || falsyString body.newPassword then
    { outcome := respond 400 false Data.null "Token and new password are required",
      world := w, calls := [], logged := [] }
  else
    let token := body.token.getD (Token.raw "")
    let newPassword := body.newPassword.getD ""
    match jwtVerify token (JWT_SECRET ctx.envSecret) ctx.now with
    | none =>
      { outcome := respond 400 false Data.null "Invalid or expired reset token",
        world := w, calls := [], logged := [] }
    | some decoded =>
      let salt := B.genSalt 10 ctx.entropy
      let hashedPassword := B.hash newPassword salt
      if useMongo ctx then
        { outcome := respond 200 true Data.null "Password has been reset successfully",
          world := { w with
            mongo := UserMongo.findByIdAndUpdate w.mongo decoded.userId hashedPassword },
          calls := [StoreCall.mongoFindByIdAndUpdate decoded.userId hashedPassword],
          logged := [] }
      else
        match UserMock.updatePassword w.mock decoded.userId hashedPassword with
        | Except.ok mock =>
          { outcome := respond 200 true Data.null "Password has been reset successfully",
            world := { w with mock := mock },
            calls := [StoreCall.mockUpdatePassword decoded.userId hashedPassword],
            logged := [] }
        | Except.error error =>
          { outcome := Outcome.fault error,
            world := w,
            calls := [StoreCall.mockUpdatePassword decoded.userId hashedPassword],
            logged := [] }

/-! ### A hasher that can be run, and concrete data -/

/-- A hasher that can be run. The salt is `rounds` letters `r` followed by
`e` letters `s`; the digest is `#`, the salt, `#`, the plaintext; `compare`
reads the plaintext back after the second `#`. -/
def refBcrypt : Bcrypt where
  genSalt := fun rounds e => String.mk (List.replicate rounds 'r' ++ List.replicate e 's')
  hash := fun p salt => String.mk ('#' :: (salt.data ++ '#' :: p.data))
  compare := fun p digest =>
    match digest.data with
    | '#' :: rest => decide (rest.dropWhile (fun c => decide (c ≠ '#')) = '#' :: p.data)
    | _ => false

/-- A context selecting the durable store. -/
def ctxMongo (now entropy : Nat) : Ctx :=
  { dbConnection := some { useMongoDB := true }, envSecret := none, now := now,
    entropy := entropy }

/-- A context selecting the in-memory store (no connection object at all). -/
def ctxMock (now entropy : Nat) : Ctx :=
  { dbConnection := none, envSecret := none, now := now, entropy := entropy }

/-- The empty world. -/
def emptyWorld : World := { mongo := [], mock := [] }

/-- The registration payload of the end-to-end example. -/
def aliceFields : UserFields :=
  { username := "alice", email := "a@x.com", password := "pw1", firstName := none,
    lastName := none }

/-- The record both stores hold for `aliceFields` once registered with
entropy `0` in an empty collection. -/
def aliceUser : User :=
  { _id := ⟨1⟩, username := "alice", email := "a@x.com",
    password := refBcrypt.hash "pw1" (refBcrypt.genSalt 10 0),
    firstName := none, lastName := none, profilePicture := none, bio := none }

/-- A second registration payload, for a store that already holds Alice. -/
def bobFields : UserFields :=
  { username := "bob", email := "b@x.com", password := "pw9", firstName := some "Bob",
    lastName := none }

/-- A payload with the email of `bobFields` and another username and password. -/
def bobAgainFields : UserFields :=
  { username := "bobby", email := "b@x.com", password := "pw8", firstName := none,
    lastName := none }

/-- A world whose two collections hold `aliceUser`. -/
def aliceWorld : World := { mongo := [aliceUser], mock := [aliceUser] }

/-! ### Vocabulary of the properties -/

/-- No two records share an email, and no two share a username. -/
def UniqueUsers (users : List User) : Prop :=
  (users.map (fun u => u.email)).Nodup ∧ (users.map (fun u => u.username)).Nodup

/-- Two `Register` calls in sequence, the second on the world the first left. -/
def registerTwice (B : Bcrypt) (ctx1 ctx2 : Ctx) (w : World) (b1 b2 : UserFields) :
    Result × Result :=
  let r1 := register B ctx1 w b1
  (r1, register B ctx2 r1.world b2)

/-- A response with status 201 and `success: true`. -/
def isCreated (o : Outcome) : Bool :=
  match o with
  | Outcome.responded r => decide (r.status = 201) && r.success
  | Outcome.fault _ => false

/-- The DuplicateUser failure: status 400, `success: false`, `data: null`, and
the message of the interface table. -/
def isDuplicateUser (o : Outcome) : Bool :=
  decide (o = respond 400 false Data.null "User with this email or username already exists")

/-- Exactly one of the two calls succeeds and the other fails with
DuplicateUser. -/
def oneCreatedOneDuplicate (p : Result × Result) : Bool :=
  (isCreated p.1.outcome && isDuplicateUser p.2.outcome) ||
    (isDuplicateUser p.1.outcome && isCreated p.2.outcome)

/-- The record a successful `Register` adds to the collection `users`. -/
def registeredUser (B : Bcrypt) (ctx : Ctx) (users : List User) (b : UserFields) : User :=
  { _id := freshId users, username := b.username, email := b.email,
    password := B.hash b.password (B.genSalt 10 ctx.entropy),
    firstName := b.firstName, lastName := b.lastName, profilePicture := none, bio := none }

/-- The world after a successful `Register`. -/
def worldWithUser (ctx : Ctx) (w : World) (v : User) : World :=
  if useMongo ctx then { w with mongo := w.mongo ++ [v] } else { w with mock := w.mock ++ [v] }

/-- A response with `success: true`. -/
def isSuccess (o : Outcome) : Bool :=
  match o with
  | Outcome.responded r => r.success
  | Outcome.fault _ => false

/-- The world after `ResetPassword` has updated the selected collection. -/
def worldWithPassword (ctx : Ctx) (w : World) (id : UserId) (digest : String) : World :=
  if useMongo ctx then { w with mongo := setPasswordById w.mongo id digest }
  else { w with mock := setPasswordById w.mock id digest }

/-- The tokens an outcome carries in its response. -/
def Outcome.tokens (o : Outcome) : List Token :=
  match o with
  | Outcome.responded r => r.data.tokens
  | Outcome.fault _ => []

/-- The context of one request of a session: same connectivity flag and
secret, its own clock reading and salt entropy. -/
def Ctx.atTime (ctx : Ctx) (now entropy : Nat) : Ctx :=
  { ctx with now := now, entropy := entropy }

/-- The seven results of the end-to-end sequence. -/
structure Lifecycle where
  registered : Result
  loginFirst : Result
  loginWrong : Result
  forgot : Result
  reset : Result
  loginOld : Result
  loginNew : Result

/-- The sequence Register, Login, Login with a wrong password, ForgotPassword,
ResetPassword with the token ForgotPassword logged, Login with the old
password, Login with the new password; request `i` runs at time `t i` with
entropy `e i`, each on the world the previous one left. -/
def lifecycle (B : Bcrypt) (ctx : Ctx) (w : World) (t e : Nat → Nat) (fields : UserFields)
    (wrong pw2 : String) : Lifecycle :=
  let r1 := register B (ctx.atTime (t 1) (e 1)) w fields
  let r2 := login B (ctx.atTime (t 2) (e 2)) r1.world ⟨fields.email, fields.password⟩
  let r3 := login B (ctx.atTime (t 3) (e 3)) r2.world ⟨fields.email, wrong⟩
  let r4 := forgotPassword (ctx.atTime (t 4) (e 4)) r3.world ⟨some fields.email⟩
  let r5 := resetPassword B (ctx.atTime (t 5) (e 5)) r4.world
    ⟨r4.logged.head?.map Prod.snd, some pw2⟩
  let r6 := login B (ctx.atTime (t 6) (e 6)) r5.world ⟨fields.email, fields.password⟩
  let r7 := login B (ctx.atTime (t 7) (e 7)) r6.world ⟨fields.email, pw2⟩
  { registered := r1, loginFirst := r2, loginWrong := r3, forgot := r4, reset := r5,
    loginOld := r6, loginNew := r7 }

/-- The Login failure response. -/
def invalidCredentials : Outcome :=
  respond 400 false Data.null "Invalid credentials"

/-- A successful Login: status 200, `success: true`, a token in the data. -/
def isLoggedIn (o : Outcome) : Bool :=
  match o with
  | Outcome.responded r => decide (r.status = 200) && r.success && !r.data.tokens.isEmpty
  | Outcome.fault _ => false

/-- What the end-to-end property says of the seven results. -/
def Lifecycle.ok (l : Lifecycle) : Bool :=
  isCreated l.registered.outcome &&
    isLoggedIn l.loginFirst.outcome &&
    decide (l.loginWrong.outcome = invalidCredentials) &&
    isSuccess l.forgot.outcome &&
    decide (l.reset.outcome =
      respond 200 true Data.null "Password has been reset successfully") &&
    decide (l.loginOld.outcome = invalidCredentials) &&
    isLoggedIn l.loginNew.outcome

/-! ### Token verification -/

/-- Verification fails exactly on a malformed token, a token whose signature
is not valid under the secret, or a token at or past its expiry. -/
theorem jwtVerify_eq_none_iff (token : Token) (secret : String) (now : Nat) :
    jwtVerify token secret now = none ↔
      (∃ s, token = Token.raw s) ∨
      (∃ p iat exp key, token = Token.jws p iat exp key ∧ (key ≠ secret ∨ exp ≤ now)) := by
  cases token with
  | raw s => simp [jwtVerify]
  | jws p iat exp key =>
    by_cases hk : key = secret
    · by_cases he : now < exp
      · constructor
        · intro h
          simp [jwtVerify, hk, he] at h
        · rintro (⟨s, hs⟩ | ⟨p2, iat2, exp2, key2, heq, hor⟩)
          · cases hs
          · cases heq
            rcases hor with h | h
            · exact absurd hk h
            · omega
      · constructor
        · intro _
          exact Or.inr ⟨p, iat, exp, key, rfl, Or.inr (by omega)⟩
        · intro _
          simp [jwtVerify, hk, he]
    · constructor
      · intro _
        exact Or.inr ⟨p, iat, exp, key, rfl, Or.inl hk⟩
      · intro _
        simp [jwtVerify, hk]

/-- A token the server signs verifies under the same secret strictly before
its expiry and at no later time. -/
theorem jwtVerify_jwtSign (payload : Payload) (secret : String) (expiresIn issued now : Nat) :
    jwtVerify (jwtSign payload secret expiresIn issued) secret now =
      if now < issued + expiresIn then some payload else none := by
  simp [jwtVerify, jwtSign]

/-! ### C1: forgot-password does not reveal whether the user exists -/

/-- C1. For every non-empty email, on either backend and for every content of
the stores, the forgot-password handler answers status 200 with
`{success: true, data: null, message}`; the answer is the same for any two
runs (whether or not the lookup finds a user, and whatever the email), it
carries no token, and the stores are left as they were. -/
theorem forgotPassword_response_independent_of_lookup
    (ctx ctx2 : Ctx) (w w2 : World) (email email2 : String)
    (hemail : email ≠ "") (hemail2 : email2 ≠ "") :
    (forgotPassword ctx w { email := some email }).outcome =
        respond 200 true Data.null
          "If an account exists with this email, a password reset link has been sent." ∧
      (forgotPassword ctx w { email := some email }).outcome =
        (forgotPassword ctx2 w2 { email := some email2 }).outcome ∧
      (∀ r, (forgotPassword ctx w { email := some email }).outcome = Outcome.responded r →
        r.data.tokens = []) ∧
      (forgotPassword ctx w { email := some email }).world = w := by
  have h1 : ∀ (c : Ctx) (v : World) (e : String), e ≠ "" →
      (forgotPassword c v { email := some e }).outcome =
        respond 200 true Data.null
          "If an account exists with this email, a password reset link has been sent." := by
    intro c v e he
    simp [forgotPassword, falsyString, he]
  refine ⟨h1 ctx w email hemail, ?_, ?_, ?_⟩
  · rw [h1 ctx w email hemail, h1 ctx2 w2 email2 hemail2]
  · intro r hr
    rw [h1 ctx w email hemail] at hr
    simp only [respond, Outcome.responded.injEq] at hr
    subst hr
    rfl
  · simp [forgotPassword, falsyString, hemail]

/-- The handler run on the stored address of `aliceUser` (found, a reset token
is logged) and on an unknown address (nothing found, nothing logged). -/
theorem forgotPassword_response_independent_of_lookup_witness :
    (forgotPassword (ctxMongo 7 0) aliceWorld { email := some "a@x.com" }).logged ≠ [] ∧
    (forgotPassword (ctxMock 9 0) emptyWorld { email := some "nobody@x.com" }).logged = [] ∧
    (forgotPassword (ctxMongo 7 0) aliceWorld { email := some "a@x.com" }).outcome =
      (forgotPassword (ctxMock 9 0) emptyWorld { email := some "nobody@x.com" }).outcome :=
  ⟨by decide, by decide,
    (forgotPassword_response_independent_of_lookup (ctxMongo 7 0) (ctxMock 9 0) aliceWorld
      emptyWorld "a@x.com" "nobody@x.com" (by decide) (by decide)).2.1⟩

/-! ### C2: wrong password and unknown email are indistinguishable -/

/-- C2. On either backend, Login with an email that is in the store and a
password that verifies against no stored record of that email, and Login with
an email that is not in the store, both answer status 400 with
`{success: false, data: null, message: "Invalid credentials"}`. -/
theorem login_wrong_password_same_as_unknown_email
    (B : Bcrypt) (ctx ctx2 : Ctx) (w w2 : World) (body body2 : LoginBody) (u : User)
    (hmem : u ∈ w.selected ctx) (hemail : u.email = body.email)
    (hwrong : ∀ v ∈ w.selected ctx, v.email = body.email →
      B.compare body.password v.password = false)
    (habsent : ∀ v ∈ w2.selected ctx2, v.email ≠ body2.email) :
    (login B ctx w body).outcome = respond 400 false Data.null "Invalid credentials" ∧
      (login B ctx2 w2 body2).outcome = respond 400 false Data.null "Invalid credentials" ∧
      (login B ctx w body).outcome = (login B ctx2 w2 body2).outcome ∧
      (w.selected ctx).find? (fun v => decide (v.email = body.email)) ≠ none ∧
      (w2.selected ctx2).find? (fun v => decide (v.email = body2.email)) = none := by
  have hA : (login B ctx w body).outcome =
      respond 400 false Data.null "Invalid credentials" := by
    unfold login
    by_cases hm : useMongo ctx = true
    · simp only [hm, if_true]
      simp only [World.selected, hm, if_true] at hmem hwrong
      cases hf : UserMongo.findOneEmail w.mongo body.email with
      | none => rfl
      | some v =>
        have hv : v ∈ w.mongo := List.mem_of_find?_eq_some hf
        have he : v.email = body.email := by
          have := List.find?_some hf
          simpa using this
        simp [hwrong v hv he]
    · simp only [hm]
      simp only [World.selected, hm] at hmem hwrong
      cases hf : UserMock.findByEmail w.mock body.email with
      | none => rfl
      | some v =>
        have hv : v ∈ w.mock := List.mem_of_find?_eq_some hf
        have he : v.email = body.email := by
          have := List.find?_some hf
          simpa using this
        simp [hwrong v hv he]
  have hB : (login B ctx2 w2 body2).outcome =
      respond 400 false Data.null "Invalid credentials" := by
    unfold login
    by_cases hm : useMongo ctx2 = true
    · simp only [hm, if_true]
      simp only [World.selected, hm, if_true] at habsent
      have hf : UserMongo.findOneEmail w2.mongo body2.email = none := by
        simp only [UserMongo.findOneEmail, List.find?_eq_none]
        intro v hv
        simpa using habsent v hv
      simp [hf]
    · simp only [hm]
      simp only [World.selected, hm] at habsent
      have hf : UserMock.findByEmail w2.mock body2.email = none := by
        simp only [UserMock.findByEmail, List.find?_eq_none]
        intro v hv
        simpa using habsent v hv
      simp [hf]
  refine ⟨hA, hB, hA.trans hB.symm, ?_, ?_⟩
  · intro hnone
    rw [List.find?_eq_none] at hnone
    simpa [hemail] using hnone u hmem
  · rw [List.find?_eq_none]
    intro v hv
    simpa using habsent v hv

/-- Alice with a wrong password on the in-memory store, and an unknown
address on the (empty) durable store. -/
theorem login_wrong_password_same_as_unknown_email_witness :
    (login refBcrypt (ctxMock 5 0) aliceWorld ⟨"a@x.com", "wrong"⟩).outcome =
      (login refBcrypt (ctxMongo 6 0) emptyWorld ⟨"nobody@x.com", "pw1"⟩).outcome :=
  (login_wrong_password_same_as_unknown_email refBcrypt (ctxMock 5 0) (ctxMongo 6 0) aliceWorld
    emptyWorld ⟨"a@x.com", "wrong"⟩ ⟨"nobody@x.com", "pw1"⟩ aliceUser (by decide) (by decide)
    (by decide) (by decide)).2.2.1

/-! ### C3: a token that fails verification changes nothing -/

/-- A non-empty token that fails verification, with a non-empty new password:
the 400 response, no store call, the world as it was. -/
theorem resetPassword_of_unverified
    (B : Bcrypt) (ctx : Ctx) (w : World) (token : Token) (newPassword : String)
    (htoken : token ≠ Token.raw "") (hpw : newPassword ≠ "")
    (hbad : jwtVerify token (JWT_SECRET ctx.envSecret) ctx.now = none) :
    resetPassword B ctx w { token := some token, newPassword := some newPassword } =
      { outcome := respond 400 false Data.null "Invalid or expired reset token",
        world := w, calls := [], logged := [] } := by
  have hf : falsyToken (some token) = false := by
    cases token with
    | raw s =>
      have : s ≠ "" := fun h => htoken (by rw [h])
      simp [falsyToken, this]
    | jws p iat exp key => rfl
  simp [resetPassword, hf, falsyString, hpw, hbad]

/-- C3. For every non-empty token whose verification fails and every
non-empty new password, on either backend, the reset-password handler answers
status 400 with message "Invalid or expired reset token", calls no store
function, and leaves both stores as they were. -/
theorem resetPassword_invalid_token_no_update
    (B : Bcrypt) (ctx : Ctx) (w : World) (token : Token) (newPassword : String)
    (htoken : token ≠ Token.raw "") (hpw : newPassword ≠ "")
    (hbad : jwtVerify token (JWT_SECRET ctx.envSecret) ctx.now = none) :
    resetPassword B ctx w { token := some token, newPassword := some newPassword } =
      { outcome := respond 400 false Data.null "Invalid or expired reset token",
        world := w, calls := [], logged := [] } :=
  resetPassword_of_unverified B ctx w token newPassword htoken hpw hbad

/-- An expired reset token for Alice, presented on the durable store. -/
theorem resetPassword_invalid_token_no_update_witness :
    (resetPassword refBcrypt (ctxMongo 3600 1) aliceWorld
      { token := some (jwtSign ⟨⟨1⟩, some "a@x.com"⟩ "college_media_secret_key" oneHour 0),
        newPassword := some "pw2" }).world = aliceWorld :=
  congrArg Result.world
    (resetPassword_invalid_token_no_update refBcrypt (ctxMongo 3600 1) aliceWorld
      (jwtSign ⟨⟨1⟩, some "a@x.com"⟩ "college_media_secret_key" oneHour 0) "pw2"
      (by decide) (by decide) (by decide))

/-! ### Facts about the stores -/

/-- Every identity in a collection is at most the largest one. -/
theorem id_le_foldr_max (users : List User) (u : User) (hu : u ∈ users) :
    u._id.n ≤ (users.map (fun v => v._id.n)).foldr max 0 := by
  induction users with
  | nil => cases hu
  | cons v vs ih =>
    simp only [List.map_cons, List.foldr_cons]
    rcases List.mem_cons.mp hu with h | h
    · subst h
      exact le_max_left _ _
    · exact le_trans (ih h) (le_max_right _ _)

/-- The identity given to a new record is carried by no record present. -/
theorem freshId_ne (users : List User) (u : User) (hu : u ∈ users) :
    u._id ≠ freshId users := by
  intro h
  have hle := id_le_foldr_max users u hu
  have hn : u._id.n = (users.map (fun v => v._id.n)).foldr max 0 + 1 := by
    rw [h]
    rfl
  omega

/-- Updating by an identity no record carries changes nothing. -/
theorem setPasswordById_absent (users : List User) (id : UserId) (pw : String)
    (h : ∀ u ∈ users, u._id ≠ id) : setPasswordById users id pw = users := by
  induction users with
  | nil => rfl
  | cons v vs ih =>
    have hv : v._id ≠ id := h v (List.mem_cons_self _ _)
    have hvs : ∀ u ∈ vs, u._id ≠ id := fun u hu => h u (List.mem_cons_of_mem _ hu)
    simp [setPasswordById, hv, ih hvs]

/-- Updating by the identity of the last record, carried by no other record,
replaces the password of that record only. -/
theorem setPasswordById_append_last (users : List User) (v : User) (pw : String)
    (h : ∀ u ∈ users, u._id ≠ v._id) :
    setPasswordById (users ++ [v]) v._id pw = users ++ [{ v with password := pw }] := by
  induction users with
  | nil => simp [setPasswordById]
  | cons x xs ih =>
    have hx : x._id ≠ v._id := h x (List.mem_cons_self _ _)
    have hxs : ∀ u ∈ xs, u._id ≠ v._id := fun u hu => h u (List.mem_cons_of_mem _ hu)
    simp [setPasswordById, hx, ih hxs]

/-- A lookup by email in a collection extended by one record whose email no
earlier record has. -/
theorem find_email_append_last (users : List User) (v : User) (email : String)
    (h : ∀ u ∈ users, u.email ≠ email) (hv : v.email = email) :
    (users ++ [v]).find? (fun u => decide (u.email = email)) = some v := by
  induction users with
  | nil => simp [hv]
  | cons x xs ih =>
    have hx : x.email ≠ email := h x (List.mem_cons_self _ _)
    have hxs : ∀ u ∈ xs, u.email ≠ email := fun u hu => h u (List.mem_cons_of_mem _ hu)
    have := ih hxs
    simp only [List.cons_append, List.find?_cons, hx, decide_False]
    exact this

/-- The text thrown by `UserMock.create` passes the route's
`includes('already exists')` test. -/
theorem includes_already_exists :
    includes "User with this email or username already exists" "already exists" = true := by
  decide

/-! ### C5: register and uniqueness -/

/-- The collection selected after `Register`: either the one before (the
call failed) or the one before extended by a record with the payload's email
and username (the call succeeded, which needs that no record had either). -/
theorem register_selected (B : Bcrypt) (ctx : Ctx) (w : World) (b : UserFields) :
    (register B ctx w b).world.selected ctx = w.selected ctx ∨
      ((∀ u ∈ w.selected ctx, u.email ≠ b.email ∧ u.username ≠ b.username) ∧
        ∃ v : User, v.email = b.email ∧ v.username = b.username ∧
          (register B ctx w b).world.selected ctx = w.selected ctx ++ [v]) := by
  unfold register
  by_cases hm : useMongo ctx = true
  · simp only [hm, if_true, World.selected]
    cases hf : UserMongo.findOneEmailOrUsername w.mongo b.email b.username with
    | some _ => exact Or.inl rfl
    | none =>
      right
      refine ⟨?_, _, ?_, ?_, rfl⟩
      · intro u hu
        have := (List.find?_eq_none.mp hf) u hu
        simpa using this
      · rfl
      · rfl
  · simp only [hm, World.selected]
    by_cases ha : (w.mock.any (fun u => decide (u.email = b.email) ||
        decide (u.username = b.username))) = true
    · left
      simp [UserMock.create, ha, includes_already_exists]
    · right
      refine ⟨?_, ?_⟩
      · intro u hu
        have hall : ∀ x ∈ w.mock, ¬ (x.email = b.email ∨ x.username = b.username) := by
          simpa using ha
        have := hall u hu
        exact ⟨fun h => this (Or.inl h), fun h => this (Or.inr h)⟩
      · simp [UserMock.create, ha]

/-- Uniqueness of emails and of usernames in the selected collection is kept
by every `Register` call. -/
theorem register_preserves_unique (B : Bcrypt) (ctx : Ctx) (w : World) (b : UserFields)
    (h : UniqueUsers (w.selected ctx)) :
    UniqueUsers ((register B ctx w b).world.selected ctx) := by
  rcases register_selected B ctx w b with heq | ⟨hfresh, v, hve, hvu, heq⟩
  · rw [heq]
    exact h
  · rw [heq]
    constructor
    · rw [List.map_append, List.nodup_append]
      refine ⟨h.1, by simp, ?_⟩
      intro a ha hb
      simp only [List.map_cons, List.map_nil, List.mem_singleton] at hb
      obtain ⟨u, hu, rfl⟩ := List.mem_map.mp ha
      exact (hfresh u hu).1 (by rw [hb, hve])
    · rw [List.map_append, List.nodup_append]
      refine ⟨h.2, by simp, ?_⟩
      intro a ha hb
      simp only [List.map_cons, List.map_nil, List.mem_singleton] at hb
      obtain ⟨u, hu, rfl⟩ := List.mem_map.mp ha
      exact (hfresh u hu).2 (by rw [hb, hvu])

/-- When no record has the payload's email or username, `Register` answers 201
with the public fields of the new record and a session token, and the selected
collection gains that record. -/
theorem register_of_fresh (B : Bcrypt) (ctx : Ctx) (w : World) (b : UserFields)
    (hfresh : ∀ u ∈ w.selected ctx, u.email ≠ b.email ∧ u.username ≠ b.username) :
    (register B ctx w b).outcome =
        respond 201 true
          (Data.registered (freshId (w.selected ctx)) b.username b.email b.firstName b.lastName
            (jwtSign { userId := freshId (w.selected ctx), email := none }
              (JWT_SECRET ctx.envSecret) sevenDays ctx.now))
          "User registered successfully" ∧
      (register B ctx w b).world = worldWithUser ctx w (registeredUser B ctx (w.selected ctx) b) := by
  unfold register
  by_cases hm : useMongo ctx = true
  · simp only [hm, if_true, World.selected, worldWithUser, registeredUser] at hfresh ⊢
    have hf : UserMongo.findOneEmailOrUsername w.mongo b.email b.username = none := by
      simp only [UserMongo.findOneEmailOrUsername, List.find?_eq_none]
      intro u hu
      have := hfresh u hu
      simp [this.1, this.2]
    simp [hf, UserMongo.new, UserMongo.save]
  · simp only [hm, World.selected, worldWithUser, registeredUser] at hfresh ⊢
    have ha : (w.mock.any (fun u => decide (u.email = b.email) ||
        decide (u.username = b.username))) = false := by
      rw [List.any_eq_false]
      intro u hu
      have := hfresh u hu
      simp [this.1, this.2]
    simp [UserMock.create, ha]

/-- When some record has the payload's email or username, `Register` answers
the DuplicateUser failure and leaves both collections as they were. -/
theorem register_of_taken (B : Bcrypt) (ctx : Ctx) (w : World) (b : UserFields) (u : User)
    (hu : u ∈ w.selected ctx) (htaken : u.email = b.email ∨ u.username = b.username) :
    (register B ctx w b).outcome =
        respond 400 false Data.null "User with this email or username already exists" ∧
      (register B ctx w b).world = w := by
  unfold register
  by_cases hm : useMongo ctx = true
  · simp only [hm, if_true, World.selected] at hu ⊢
    cases hf : UserMongo.findOneEmailOrUsername w.mongo b.email b.username with
    | some _ => exact ⟨rfl, rfl⟩
    | none =>
      have := (List.find?_eq_none.mp hf) u hu
      simp at this
      rcases htaken with h | h
      · exact absurd h this.1
      · exact absurd h this.2
  · simp only [hm, World.selected] at hu ⊢
    have ha : (w.mock.any (fun x => decide (x.email = b.email) ||
        decide (x.username = b.username))) = true := by
      rw [List.any_eq_true]
      exact ⟨u, hu, by simpa using htaken⟩
    simp [UserMock.create, ha, includes_already_exists]

/-- The selected collection of a world extended by one record. -/
theorem worldWithUser_selected (ctx ctx2 : Ctx) (w : World) (v : User)
    (hsame : useMongo ctx2 = useMongo ctx) :
    (worldWithUser ctx w v).selected ctx2 = w.selected ctx ++ [v] := by
  by_cases hm : useMongo ctx = true
  · simp [worldWithUser, World.selected, hm, hsame]
  · simp [worldWithUser, World.selected, hm, hsame]

/-- A `Register` call that does not answer 201 leaves both stores as they
were. -/
theorem register_not_created_world (B : Bcrypt) (ctx : Ctx) (w : World) (b : UserFields)
    (h : isCreated (register B ctx w b).outcome = false) : (register B ctx w b).world = w := by
  by_cases hex : ∃ u ∈ w.selected ctx, u.email = b.email ∨ u.username = b.username
  · obtain ⟨u, hu, ht⟩ := hex
    exact (register_of_taken B ctx w b u hu ht).2
  · have hfresh : ∀ u ∈ w.selected ctx, u.email ≠ b.email ∧ u.username ≠ b.username := by
      intro u hu
      exact ⟨fun he => hex ⟨u, hu, Or.inl he⟩, fun he => hex ⟨u, hu, Or.inr he⟩⟩
    rw [(register_of_fresh B ctx w b hfresh).1] at h
    simp [isCreated, respond] at h

/-- C5 (as amended). On either backend, if the store holds no user with the
email or the username of the first payload, then of two `Register` calls in
sequence, the second with the same email, the first answers 201 and the second
answers the DuplicateUser failure (status 400, data null, message exactly
"User with this email or username already exists"), and the failing call
creates no user. Moreover, for every `Register` call on every store state:
a store in which emails and usernames are unique stays so; a call that does
not answer 201 leaves the stores as they were; and a call whose email or whose
username some stored user has answers the DuplicateUser failure. -/
theorem register_twice_one_created_one_duplicate
    (B : Bcrypt) (ctx1 ctx2 : Ctx) (w : World) (b1 b2 : UserFields)
    (hsame : useMongo ctx2 = useMongo ctx1)
    (hfresh : ∀ u ∈ w.selected ctx1, u.email ≠ b1.email ∧ u.username ≠ b1.username)
    (hemail : b2.email = b1.email) :
    isCreated (registerTwice B ctx1 ctx2 w b1 b2).1.outcome = true ∧
      (registerTwice B ctx1 ctx2 w b1 b2).2.outcome =
        respond 400 false Data.null "User with this email or username already exists" ∧
      oneCreatedOneDuplicate (registerTwice B ctx1 ctx2 w b1 b2) = true ∧
      (registerTwice B ctx1 ctx2 w b1 b2).2.world = (registerTwice B ctx1 ctx2 w b1 b2).1.world ∧
      (registerTwice B ctx1 ctx2 w b1 b2).2.world.selected ctx1 =
        w.selected ctx1 ++ [registeredUser B ctx1 (w.selected ctx1) b1] ∧
      (UniqueUsers (w.selected ctx1) →
        UniqueUsers ((registerTwice B ctx1 ctx2 w b1 b2).2.world.selected ctx1)) ∧
      (∀ (ctx0 : Ctx) (w0 : World) (b0 : UserFields), UniqueUsers (w0.selected ctx0) →
        UniqueUsers ((register B ctx0 w0 b0).world.selected ctx0)) ∧
      (∀ (ctx0 : Ctx) (w0 : World) (b0 : UserFields),
        isCreated (register B ctx0 w0 b0).outcome = false →
        (register B ctx0 w0 b0).world = w0) ∧
      (∀ (ctx0 : Ctx) (w0 : World) (b0 : UserFields) (u : User), u ∈ w0.selected ctx0 →
        (u.email = b0.email ∨ u.username = b0.username) →
        (register B ctx0 w0 b0).outcome =
          respond 400 false Data.null "User with this email or username already exists" ∧
        (register B ctx0 w0 b0).world = w0) := by
  obtain ⟨ho1, hw1⟩ := register_of_fresh B ctx1 w b1 hfresh
  have hsel : (register B ctx1 w b1).world.selected ctx2 =
      w.selected ctx1 ++ [registeredUser B ctx1 (w.selected ctx1) b1] := by
    rw [hw1]
    exact worldWithUser_selected ctx1 ctx2 w _ hsame
  have hmem : registeredUser B ctx1 (w.selected ctx1) b1 ∈
      (register B ctx1 w b1).world.selected ctx2 := by
    rw [hsel]
    simp
  obtain ⟨ho2, hw2⟩ := register_of_taken B ctx2 (register B ctx1 w b1).world b2
    (registeredUser B ctx1 (w.selected ctx1) b1) hmem (Or.inl hemail.symm)
  have hc : isCreated (register B ctx1 w b1).outcome = true := by
    rw [ho1]
    rfl
  have hd : isDuplicateUser (register B ctx2 (register B ctx1 w b1).world b2).outcome = true := by
    rw [ho2]
    simp [isDuplicateUser]
  have hsel1 : (register B ctx1 w b1).world.selected ctx1 =
      w.selected ctx1 ++ [registeredUser B ctx1 (w.selected ctx1) b1] := by
    rw [hw1]
    exact worldWithUser_selected ctx1 ctx1 w _ rfl
  refine ⟨hc, ho2, ?_, hw2, ?_, ?_, ?_, ?_, ?_⟩
  · simp only [oneCreatedOneDuplicate, registerTwice]
    rw [hc, hd]
    rfl
  · simp only [registerTwice]
    rw [hw2, hsel1]
  · intro hU
    simp only [registerTwice]
    rw [hw2]
    exact register_preserves_unique B ctx1 w b1 hU
  · intro ctx0 w0 b0 hU
    exact register_preserves_unique B ctx0 w0 b0 hU
  · intro ctx0 w0 b0 hnot
    exact register_not_created_world B ctx0 w0 b0 hnot
  · intro ctx0 w0 b0 u hu ht
    exact register_of_taken B ctx0 w0 b0 u hu ht

/-- Bob registered twice, the second time under another username, on the
durable store that already holds Alice: one 201, one DuplicateUser, and the
store keeps its emails and usernames unique. -/
theorem register_twice_one_created_one_duplicate_witness :
    oneCreatedOneDuplicate
        (registerTwice refBcrypt (ctxMongo 0 0) (ctxMongo 1 1) aliceWorld bobFields
          bobAgainFields) = true ∧
      UniqueUsers
        ((registerTwice refBcrypt (ctxMongo 0 0) (ctxMongo 1 1) aliceWorld bobFields
          bobAgainFields).2.world.selected (ctxMongo 0 0)) ∧
      ((registerTwice refBcrypt (ctxMongo 0 0) (ctxMongo 1 1) aliceWorld bobFields
          bobAgainFields).2.world.selected (ctxMongo 0 0)).length = 2 :=
  ⟨(register_twice_one_created_one_duplicate refBcrypt (ctxMongo 0 0) (ctxMongo 1 1) aliceWorld
      bobFields bobAgainFields (by decide) (by decide) (by decide)).2.2.1,
    (register_twice_one_created_one_duplicate refBcrypt (ctxMongo 0 0) (ctxMongo 1 1) aliceWorld
      bobFields bobAgainFields (by decide) (by decide) (by decide)).2.2.2.2.2.1
      (show (List.map (fun u => u.email) (aliceWorld.selected (ctxMongo 0 0))).Nodup ∧
          (List.map (fun u => u.username) (aliceWorld.selected (ctxMongo 0 0))).Nodup from
        ⟨by decide, by decide⟩),
    by decide⟩

/-- C5 as stated fails on a store that already holds the email: both calls
answer the DuplicateUser failure, and no call succeeds. -/
theorem register_twice_on_taken_email_no_success :
    oneCreatedOneDuplicate
        (registerTwice refBcrypt (ctxMongo 0 0) (ctxMongo 1 1) aliceWorld aliceFields
          aliceFields) = false ∧
      isCreated (registerTwice refBcrypt (ctxMongo 0 0) (ctxMongo 1 1) aliceWorld aliceFields
        aliceFields).1.outcome = false ∧
      isCreated (registerTwice refBcrypt (ctxMongo 0 0) (ctxMongo 1 1) aliceWorld aliceFields
        aliceFields).2.outcome = false ∧
      oneCreatedOneDuplicate
        (registerTwice refBcrypt (ctxMock 0 0) (ctxMock 1 1) aliceWorld aliceFields
          aliceFields) = false := by
  decide

/-! ### C8: reset-password for a user the store does not hold -/

/-- A token that verifies is a JWS, hence not the empty string. -/
theorem falsyToken_of_verified (token : Token) (secret : String) (now : Nat) (decoded : Payload)
    (hok : jwtVerify token secret now = some decoded) : falsyToken (some token) = false := by
  cases token with
  | raw s => simp [jwtVerify] at hok
  | jws p iat exp key => rfl

/-- C8 (as amended). For every validly signed, unexpired token whose userId
matches no user in the selected store and every non-empty new password: on the
durable backend the update matches no document, the stores are left as they
were and the handler answers the success response (status 200, "Password has
been reset successfully"); on the in-memory backend the update fails with
NotFound, the error goes to the error handler and no response is sent. -/
theorem resetPassword_missing_user
    (B : Bcrypt) (ctx : Ctx) (w : World) (token : Token) (newPassword : String)
    (decoded : Payload) (hpw : newPassword ≠ "")
    (hok : jwtVerify token (JWT_SECRET ctx.envSecret) ctx.now = some decoded)
    (hmissing : ∀ u ∈ w.selected ctx, u._id ≠ decoded.userId) :
    (useMongo ctx = true →
        resetPassword B ctx w { token := some token, newPassword := some newPassword } =
          { outcome := respond 200 true Data.null "Password has been reset successfully",
            world := w,
            calls := [StoreCall.mongoFindByIdAndUpdate decoded.userId
              (B.hash newPassword (B.genSalt 10 ctx.entropy))],
            logged := [] }) ∧
      (useMongo ctx = false →
        resetPassword B ctx w { token := some token, newPassword := some newPassword } =
          { outcome := Outcome.fault { kind := ErrorKind.NotFound, message := "NotFound" },
            world := w,
            calls := [StoreCall.mockUpdatePassword decoded.userId
              (B.hash newPassword (B.genSalt 10 ctx.entropy))],
            logged := [] }) := by
  have hf := falsyToken_of_verified token _ _ decoded hok
  constructor
  · intro hm
    simp only [World.selected, hm, if_true] at hmissing
    simp [resetPassword, hf, falsyString, hpw, hok, hm, UserMongo.findByIdAndUpdate,
      setPasswordById_absent w.mongo decoded.userId _ hmissing]
  · intro hm
    simp only [World.selected, hm] at hmissing
    have ha : (w.mock.any (fun u => decide (u._id = decoded.userId))) = false := by
      rw [List.any_eq_false]
      intro u hu
      simpa using hmissing u hu
    simp [resetPassword, hf, falsyString, hpw, hok, hm, UserMock.updatePassword, ha]

/-- A reset token for identity 7, which `aliceWorld` does not hold,
presented on the in-memory store within the hour. -/
theorem resetPassword_missing_user_witness :
    (resetPassword refBcrypt (ctxMock 10 1) aliceWorld
      { token := some (jwtSign ⟨⟨7⟩, some "gone@x.com"⟩ "college_media_secret_key" oneHour 0),
        newPassword := some "pw2" }).outcome =
      Outcome.fault { kind := ErrorKind.NotFound, message := "NotFound" } :=
  congrArg Result.outcome
    ((resetPassword_missing_user refBcrypt (ctxMock 10 1) aliceWorld
      (jwtSign ⟨⟨7⟩, some "gone@x.com"⟩ "college_media_secret_key" oneHour 0) "pw2"
      ⟨⟨7⟩, some "gone@x.com"⟩ (by decide) (by decide) (by decide)).2 (by decide))

/-- C8 as stated fails on the durable backend: a valid token for identity 7,
which the store does not hold, gets the success response. -/
theorem resetPassword_durable_missing_user_success :
    aliceWorld.mongo.all (fun u => decide (u._id ≠ ⟨7⟩)) = true ∧
      jwtVerify (jwtSign ⟨⟨7⟩, some "gone@x.com"⟩ "college_media_secret_key" oneHour 0)
        (JWT_SECRET (ctxMongo 10 1).envSecret) (ctxMongo 10 1).now =
          some ⟨⟨7⟩, some "gone@x.com"⟩ ∧
      (resetPassword refBcrypt (ctxMongo 10 1) aliceWorld
        { token := some (jwtSign ⟨⟨7⟩, some "gone@x.com"⟩ "college_media_secret_key" oneHour 0),
          newPassword := some "pw2" }).outcome =
        respond 200 true Data.null "Password has been reset successfully" := by
  decide

/-! ### What a successful call looks like -/

/-- A successful `Register` found no record with the payload's email or
username. -/
theorem register_success_fresh (B : Bcrypt) (ctx : Ctx) (w : World) (b : UserFields)
    (hs : isSuccess (register B ctx w b).outcome = true) :
    ∀ u ∈ w.selected ctx, u.email ≠ b.email ∧ u.username ≠ b.username := by
  by_contra hne
  have hex : ∃ u ∈ w.selected ctx, u.email = b.email ∨ u.username = b.username := by
    by_contra hno
    apply hne
    intro u hu
    exact ⟨fun h => hno ⟨u, hu, Or.inl h⟩, fun h => hno ⟨u, hu, Or.inr h⟩⟩
  obtain ⟨u, hu, ht⟩ := hex
  rw [(register_of_taken B ctx w b u hu ht).1] at hs
  simp [isSuccess, respond] at hs

/-- A successful `Login` found a record with the email given, whose stored
password the password given verifies against, and answers 200 with that
record's public fields and a session token for its identity. -/
theorem login_success (B : Bcrypt) (ctx : Ctx) (w : World) (b : LoginBody)
    (hs : isSuccess (login B ctx w b).outcome = true) :
    ∃ u ∈ w.selected ctx, u.email = b.email ∧ B.compare b.password u.password = true ∧
      (w.selected ctx).find? (fun v => decide (v.email = b.email)) = some u ∧
      (login B ctx w b).outcome =
        respond 200 true
          (Data.loggedIn u._id u.username u.email u.firstName u.lastName u.profilePicture u.bio
            (jwtSign { userId := u._id, email := none } (JWT_SECRET ctx.envSecret) sevenDays
              ctx.now))
          "Login successful" := by
  unfold login at hs ⊢
  by_cases hm : useMongo ctx = true
  · simp only [hm, if_true, World.selected, UserMongo.findOneEmail] at hs ⊢
    cases hf : w.mongo.find? (fun u => decide (u.email = b.email)) with
    | none => simp [hf, isSuccess, respond] at hs
    | some v =>
      have hv : v ∈ w.mongo := List.mem_of_find?_eq_some hf
      have he : v.email = b.email := by simpa using List.find?_some hf
      by_cases hc : B.compare b.password v.password = true
      · exact ⟨v, hv, he, hc, rfl, by simp [hc]⟩
      · simp [hf, hc, isSuccess, respond] at hs
  · simp only [hm, World.selected, UserMock.findByEmail, Bool.false_eq_true, if_false] at hs ⊢
    cases hf : w.mock.find? (fun u => decide (u.email = b.email)) with
    | none => simp [hf, isSuccess, respond] at hs
    | some v =>
      have hv : v ∈ w.mock := List.mem_of_find?_eq_some hf
      have he : v.email = b.email := by simpa using List.find?_some hf
      by_cases hc : B.compare b.password v.password = true
      · exact ⟨v, hv, he, hc, rfl, by simp [hc]⟩
      · simp [hf, hc, isSuccess, respond] at hs

/-- On a token that verifies and names a user the selected store holds, with a
non-empty new password, `ResetPassword` answers success and replaces the
password of that user by the digest of the new password. -/
theorem resetPassword_of_verified (B : Bcrypt) (ctx : Ctx) (w : World) (token : Token)
    (newPassword : String) (decoded : Payload) (u : User) (hpw : newPassword ≠ "")
    (hok : jwtVerify token (JWT_SECRET ctx.envSecret) ctx.now = some decoded)
    (hu : u ∈ w.selected ctx) (hid : u._id = decoded.userId) :
    (resetPassword B ctx w { token := some token, newPassword := some newPassword }).outcome =
        respond 200 true Data.null "Password has been reset successfully" ∧
      (resetPassword B ctx w { token := some token, newPassword := some newPassword }).world =
        worldWithPassword ctx w decoded.userId
          (B.hash newPassword (B.genSalt 10 ctx.entropy)) := by
  have hf := falsyToken_of_verified token _ _ decoded hok
  by_cases hm : useMongo ctx = true
  · simp [resetPassword, hf, falsyString, hpw, hok, hm, UserMongo.findByIdAndUpdate,
      worldWithPassword]
  · simp only [World.selected, hm] at hu
    have ha : (w.mock.any (fun x => decide (x._id = decoded.userId))) = true := by
      rw [List.any_eq_true]
      exact ⟨u, hu, by simpa using hid⟩
    simp [resetPassword, hf, falsyString, hpw, hok, hm, UserMock.updatePassword, ha,
      worldWithPassword]

/-- Verification yields a payload exactly for a JWS carrying that payload,
signed under the secret and not yet at its expiry, whatever the payload. -/
theorem jwtVerify_eq_some_iff (token : Token) (secret : String) (now : Nat) (p : Payload) :
    jwtVerify token secret now = some p ↔
      ∃ iat exp, token = Token.jws p iat exp secret ∧ now < exp := by
  cases token with
  | raw s => simp [jwtVerify]
  | jws q iat exp key =>
    constructor
    · intro h
      by_cases hk : key = secret
      · by_cases he : now < exp
        · simp [jwtVerify, hk, he] at h
          exact ⟨iat, exp, by rw [h, hk], he⟩
        · simp [jwtVerify, hk, he] at h
      · simp [jwtVerify, hk] at h
    · rintro ⟨iat2, exp2, heq, hlt⟩
      cases heq
      simp [jwtVerify, hlt]

/-! ### C6: the password value handed to the store -/

/-- C6 (as amended). With a hasher that never returns its input: on a
successful Register on the durable backend and on a successful ResetPassword
on either backend, the one password value the handler hands to the store is
the work-factor-10 digest of the plaintext, not the plaintext; on the
in-memory backend Register hands `UserMock.create` the plaintext, and the
record stored on success carries the digest. -/
theorem password_handed_to_store (B : Bcrypt) (ctx : Ctx) (w : World)
    (hne : ∀ p salt : String, B.hash p salt ≠ p) :
    (∀ b : UserFields, useMongo ctx = true → isSuccess (register B ctx w b).outcome = true →
        (register B ctx w b).calls.filterMap StoreCall.writtenPassword =
          [B.hash b.password (B.genSalt 10 ctx.entropy)] ∧
        B.hash b.password (B.genSalt 10 ctx.entropy) ≠ b.password) ∧
      (∀ (token : Option Token) (newPassword : String),
        isSuccess (resetPassword B ctx w
          { token := token, newPassword := some newPassword }).outcome = true →
        (resetPassword B ctx w
          { token := token, newPassword := some newPassword }).calls.filterMap
            StoreCall.writtenPassword = [B.hash newPassword (B.genSalt 10 ctx.entropy)] ∧
        B.hash newPassword (B.genSalt 10 ctx.entropy) ≠ newPassword) ∧
      (∀ b : UserFields, useMongo ctx = false →
        (register B ctx w b).calls = [StoreCall.mockCreate b] ∧
        (register B ctx w b).calls.filterMap StoreCall.writtenPassword = [b.password] ∧
        (isSuccess (register B ctx w b).outcome = true →
          ∃ v : User, (register B ctx w b).world.mock = w.mock ++ [v] ∧
            v.password = B.hash b.password (B.genSalt 10 ctx.entropy) ∧
            v.password ≠ b.password)) := by
  refine ⟨?_, ?_, ?_⟩
  · intro b hm hs
    refine ⟨?_, hne _ _⟩
    have hfresh := register_success_fresh B ctx w b hs
    simp only [World.selected, hm, if_true] at hfresh
    have hf : UserMongo.findOneEmailOrUsername w.mongo b.email b.username = none := by
      simp only [UserMongo.findOneEmailOrUsername, List.find?_eq_none]
      intro u hu
      have := hfresh u hu
      simp [this.1, this.2]
    simp [register, hm, hf, StoreCall.writtenPassword]
  · intro token newPassword hs
    refine ⟨?_, hne _ _⟩
    unfold resetPassword at hs ⊢
    by_cases hf : (falsyToken token || falsyString (some newPassword)) = true
    · simp [hf, isSuccess, respond] at hs
    · simp only [hf, Bool.false_eq_true, if_false, Option.getD_some] at hs ⊢
      cases hv : jwtVerify (token.getD (Token.raw "")) (JWT_SECRET ctx.envSecret) ctx.now with
      | none => simp [hv, isSuccess, respond] at hs
      | some decoded =>
        by_cases hm : useMongo ctx = true
        · simp [hm, StoreCall.writtenPassword]
        · simp only [hm, Bool.false_eq_true, if_false]
          cases hu : UserMock.updatePassword w.mock decoded.userId
              (B.hash newPassword (B.genSalt 10 ctx.entropy)) with
          | ok mock => simp [StoreCall.writtenPassword]
          | error e => simp [StoreCall.writtenPassword]
  · intro b hm
    have hcalls : (register B ctx w b).calls = [StoreCall.mockCreate b] := by
      unfold register
      simp only [hm, Bool.false_eq_true, if_false]
      cases hc : UserMock.create B ctx.entropy w.mock
          { username := b.username, email := b.email, password := b.password,
            firstName := b.firstName, lastName := b.lastName } with
      | ok p => rfl
      | error e =>
        by_cases hi : includes e.message "already exists" = true
        · simp [hi]
        · simp [hi]
    refine ⟨hcalls, by rw [hcalls]; rfl, ?_⟩
    intro hs
    have hfresh := register_success_fresh B ctx w b hs
    have hw := (register_of_fresh B ctx w b hfresh).2
    refine ⟨registeredUser B ctx w.mock b, ?_, rfl, hne _ _⟩
    rw [hw]
    simp [worldWithUser, World.selected, hm]

/-- The reference hasher never returns its input: the digest is longer. -/
theorem refBcrypt_hash_ne (p salt : String) : refBcrypt.hash p salt ≠ p := by
  intro h
  have hd : ('#' :: (salt.data ++ '#' :: p.data)) = p.data := congrArg String.data h
  have hl := congrArg List.length hd
  simp only [List.length_cons, List.length_append] at hl
  omega

/-- A registration on the durable store with the reference hasher. -/
theorem password_handed_to_store_witness :
    (register refBcrypt (ctxMongo 0 0) emptyWorld aliceFields).calls.filterMap
        StoreCall.writtenPassword = [refBcrypt.hash "pw1" (refBcrypt.genSalt 10 0)] ∧
      refBcrypt.hash "pw1" (refBcrypt.genSalt 10 0) ≠ "pw1" :=
  (password_handed_to_store refBcrypt (ctxMongo 0 0) emptyWorld refBcrypt_hash_ne).1
    aliceFields (by decide) (by decide)

/-- C6 as stated fails on the in-memory backend: the successful Register hands
`UserMock.create` the plaintext `"pw1"`. -/
theorem register_mock_hands_plaintext :
    isSuccess (register refBcrypt (ctxMock 0 0) emptyWorld aliceFields).outcome = true ∧
      (register refBcrypt (ctxMock 0 0) emptyWorld aliceFields).calls =
        [StoreCall.mockCreate aliceFields] ∧
      (register refBcrypt (ctxMock 0 0) emptyWorld aliceFields).calls.filterMap
        StoreCall.writtenPassword = [aliceFields.password] ∧
      aliceFields.password ≠ refBcrypt.hash aliceFields.password (refBcrypt.genSalt 10 0) := by
  decide

/-! ### C7: session tokens presented to reset-password -/

/-- The record registered is held by the world after a successful `Register`. -/
theorem registeredUser_mem (ctx ctx2 : Ctx) (w : World) (v : User)
    (hsame : useMongo ctx2 = useMongo ctx) : v ∈ (worldWithUser ctx w v).selected ctx2 := by
  rw [worldWithUser_selected ctx ctx2 w v hsame]
  simp

/-- C7 (as amended). The verification step of ResetPassword yields the payload
of every token signed with the server secret and not yet expired, whatever the
shape of the payload, and fails on every other token. So a session token
issued by Login or by Register (payload `{userId}` only), given to
ResetPassword under the same secret before its 7-day expiry with a non-empty
new password, is accepted: the handler answers status 200 "Password has been
reset successfully" and replaces the password of the token's user by the
digest of the new password. -/
theorem resetPassword_accepts_session_token
    (B : Bcrypt) (ctx ctx2 : Ctx) (w : World) (newPassword : String)
    (hflag : useMongo ctx2 = useMongo ctx) (hsecret : ctx2.envSecret = ctx.envSecret)
    (htime : ctx2.now < ctx.now + sevenDays) (hpw : newPassword ≠ "") :
    (∀ (token : Token) (p : Payload),
        jwtVerify token (JWT_SECRET ctx2.envSecret) ctx2.now = some p ↔
          ∃ iat exp, token = Token.jws p iat exp (JWT_SECRET ctx2.envSecret) ∧ ctx2.now < exp) ∧
      (∀ b : LoginBody, isSuccess (login B ctx w b).outcome = true →
        ∃ u ∈ w.selected ctx, u.email = b.email ∧
          (login B ctx w b).outcome.tokens =
            [jwtSign { userId := u._id, email := none } (JWT_SECRET ctx.envSecret) sevenDays
              ctx.now] ∧
          (resetPassword B ctx2 w
            { token := some (jwtSign { userId := u._id, email := none }
                (JWT_SECRET ctx.envSecret) sevenDays ctx.now),
              newPassword := some newPassword }).outcome =
            respond 200 true Data.null "Password has been reset successfully" ∧
          (resetPassword B ctx2 w
            { token := some (jwtSign { userId := u._id, email := none }
                (JWT_SECRET ctx.envSecret) sevenDays ctx.now),
              newPassword := some newPassword }).world =
            worldWithPassword ctx2 w u._id (B.hash newPassword (B.genSalt 10 ctx2.entropy))) ∧
      (∀ b : UserFields, isSuccess (register B ctx w b).outcome = true →
        (register B ctx w b).outcome.tokens =
            [jwtSign { userId := freshId (w.selected ctx), email := none }
              (JWT_SECRET ctx.envSecret) sevenDays ctx.now] ∧
          (resetPassword B ctx2 (register B ctx w b).world
            { token := some (jwtSign { userId := freshId (w.selected ctx), email := none }
                (JWT_SECRET ctx.envSecret) sevenDays ctx.now),
              newPassword := some newPassword }).outcome =
            respond 200 true Data.null "Password has been reset successfully" ∧
          (resetPassword B ctx2 (register B ctx w b).world
            { token := some (jwtSign { userId := freshId (w.selected ctx), email := none }
                (JWT_SECRET ctx.envSecret) sevenDays ctx.now),
              newPassword := some newPassword }).world =
            worldWithPassword ctx2 (register B ctx w b).world (freshId (w.selected ctx))
              (B.hash newPassword (B.genSalt 10 ctx2.entropy))) := by
  have hverify : ∀ id : UserId,
      jwtVerify (jwtSign { userId := id, email := none } (JWT_SECRET ctx.envSecret) sevenDays
        ctx.now) (JWT_SECRET ctx2.envSecret) ctx2.now = some { userId := id, email := none } := by
    intro id
    rw [hsecret, jwtVerify_jwtSign, if_pos htime]
  refine ⟨fun token p => jwtVerify_eq_some_iff token _ _ p, ?_, ?_⟩
  · intro b hs
    obtain ⟨u, hu, he, _, _, ho⟩ := login_success B ctx w b hs
    have hu2 : u ∈ w.selected ctx2 := by
      simpa [World.selected, hflag] using hu
    obtain ⟨h1, h2⟩ := resetPassword_of_verified B ctx2 w _ newPassword _ u hpw
      (hverify u._id) hu2 rfl
    refine ⟨u, hu, he, ?_, h1, h2⟩
    rw [ho]
    rfl
  · intro b hs
    have hfresh := register_success_fresh B ctx w b hs
    obtain ⟨ho, hw⟩ := register_of_fresh B ctx w b hfresh
    have hmem : registeredUser B ctx (w.selected ctx) b ∈
        (register B ctx w b).world.selected ctx2 := by
      rw [hw]
      exact registeredUser_mem ctx ctx2 w _ hflag
    obtain ⟨h1, h2⟩ := resetPassword_of_verified B ctx2 (register B ctx w b).world _ newPassword
      _ (registeredUser B ctx (w.selected ctx) b) hpw (hverify (freshId (w.selected ctx))) hmem rfl
    refine ⟨?_, h1, h2⟩
    rw [ho]
    rfl

/-- The session token Alice gets from Login at time 5, presented to
reset-password at time 100 on the in-memory store. -/
theorem resetPassword_accepts_session_token_witness :
    ∃ u ∈ aliceWorld.selected (ctxMock 5 0), u.email = "a@x.com" ∧
      (login refBcrypt (ctxMock 5 0) aliceWorld ⟨"a@x.com", "pw1"⟩).outcome.tokens =
        [jwtSign { userId := u._id, email := none } (JWT_SECRET (ctxMock 5 0).envSecret)
          sevenDays (ctxMock 5 0).now] ∧
      (resetPassword refBcrypt (ctxMock 100 3) aliceWorld
        { token := some (jwtSign { userId := u._id, email := none }
            (JWT_SECRET (ctxMock 5 0).envSecret) sevenDays (ctxMock 5 0).now),
          newPassword := some "other" }).outcome =
        respond 200 true Data.null "Password has been reset successfully" ∧
      (resetPassword refBcrypt (ctxMock 100 3) aliceWorld
        { token := some (jwtSign { userId := u._id, email := none }
            (JWT_SECRET (ctxMock 5 0).envSecret) sevenDays (ctxMock 5 0).now),
          newPassword := some "other" }).world =
        worldWithPassword (ctxMock 100 3) aliceWorld u._id
          (refBcrypt.hash "other" (refBcrypt.genSalt 10 (ctxMock 100 3).entropy)) :=
  (resetPassword_accepts_session_token refBcrypt (ctxMock 5 0) (ctxMock 100 3) aliceWorld "other"
    (by decide) (by decide) (by decide) (by decide)).2.1 ⟨"a@x.com", "pw1"⟩ (by decide)

/-- C7 as stated fails: the session token Login issues to Alice at time 5
(payload `{userId}` only) is not rejected by reset-password at time 100; the
handler answers 200 and Alice's stored password becomes the digest of the new
password, on either backend. -/
theorem resetPassword_session_token_not_rejected :
    (login refBcrypt (ctxMongo 5 0) aliceWorld ⟨"a@x.com", "pw1"⟩).outcome.tokens =
        [Token.jws ⟨⟨1⟩, none⟩ 5 604805 "college_media_secret_key"] ∧
      (resetPassword refBcrypt (ctxMongo 100 3) aliceWorld
        { token := some (Token.jws ⟨⟨1⟩, none⟩ 5 604805 "college_media_secret_key"),
          newPassword := some "other" }).outcome =
        respond 200 true Data.null "Password has been reset successfully" ∧
      (resetPassword refBcrypt (ctxMongo 100 3) aliceWorld
        { token := some (Token.jws ⟨⟨1⟩, none⟩ 5 604805 "college_media_secret_key"),
          newPassword := some "other" }).world.mongo =
        [{ aliceUser with password := refBcrypt.hash "other" (refBcrypt.genSalt 10 3) }] ∧
      (resetPassword refBcrypt (ctxMock 100 3) aliceWorld
        { token := some (Token.jws ⟨⟨1⟩, none⟩ 5 604805 "college_media_secret_key"),
          newPassword := some "other" }).outcome =
        respond 200 true Data.null "Password has been reset successfully" ∧
      (resetPassword refBcrypt (ctxMock 100 3) aliceWorld
        { token := some (Token.jws ⟨⟨1⟩, none⟩ 5 604805 "college_media_secret_key"),
          newPassword := some "other" }).world.mock =
        [{ aliceUser with password := refBcrypt.hash "other" (refBcrypt.genSalt 10 3) }] := by
  decide

/-! ### C10: token payloads and validity windows -/

/-- C10. On either backend: the token of a successful Register or Login is
signed with the server secret over `{userId}` of the user registered or logged
in, issued at the time of the call and expiring exactly 604800 seconds (7
days) later; the token ForgotPassword logs for a found user is signed with the
same secret over `{userId, email}` of that user and expires exactly 3600
seconds (1 hour) after issue; ResetPassword, with a non-empty new password,
accepts that token at every time before issue + 1 hour and rejects it with
"Invalid or expired reset token" from issue + 1 hour on. -/
theorem token_payloads_and_windows (B : Bcrypt) (ctx : Ctx) (w : World) :
    (∀ b : UserFields, isSuccess (register B ctx w b).outcome = true →
        ∃ v ∈ (register B ctx w b).world.selected ctx,
          v.email = b.email ∧ v.username = b.username ∧
          (register B ctx w b).outcome.tokens =
            [Token.jws { userId := v._id, email := none } ctx.now (ctx.now + 604800)
              (JWT_SECRET ctx.envSecret)]) ∧
      (∀ b : LoginBody, isSuccess (login B ctx w b).outcome = true →
        ∃ u ∈ w.selected ctx, u.email = b.email ∧
          (login B ctx w b).outcome.tokens =
            [Token.jws { userId := u._id, email := none } ctx.now (ctx.now + 604800)
              (JWT_SECRET ctx.envSecret)]) ∧
      (∀ (email : String) (u : User), email ≠ "" →
        (w.selected ctx).find? (fun v => decide (v.email = email)) = some u →
        (forgotPassword ctx w { email := some email }).logged =
            [(email, Token.jws { userId := u._id, email := some u.email } ctx.now
              (ctx.now + 3600) (JWT_SECRET ctx.envSecret))] ∧
          (∀ now2 : Nat, now2 < ctx.now + 3600 →
            jwtVerify (Token.jws { userId := u._id, email := some u.email } ctx.now
              (ctx.now + 3600) (JWT_SECRET ctx.envSecret)) (JWT_SECRET ctx.envSecret) now2 =
              some { userId := u._id, email := some u.email }) ∧
          (∀ now2 : Nat, ctx.now + 3600 ≤ now2 →
            jwtVerify (Token.jws { userId := u._id, email := some u.email } ctx.now
              (ctx.now + 3600) (JWT_SECRET ctx.envSecret)) (JWT_SECRET ctx.envSecret) now2 =
              none) ∧
          ∀ (ctx2 : Ctx) (newPassword : String), useMongo ctx2 = useMongo ctx →
            ctx2.envSecret = ctx.envSecret → newPassword ≠ "" →
            (ctx2.now < ctx.now + 3600 →
              (resetPassword B ctx2 w
                { token := some (Token.jws { userId := u._id, email := some u.email } ctx.now
                    (ctx.now + 3600) (JWT_SECRET ctx.envSecret)),
                  newPassword := some newPassword }).outcome =
                respond 200 true Data.null "Password has been reset successfully") ∧
            (ctx.now + 3600 ≤ ctx2.now →
              resetPassword B ctx2 w
                { token := some (Token.jws { userId := u._id, email := some u.email } ctx.now
                    (ctx.now + 3600) (JWT_SECRET ctx.envSecret)),
                  newPassword := some newPassword } =
                { outcome := respond 400 false Data.null "Invalid or expired reset token",
                  world := w, calls := [], logged := [] })) := by
  refine ⟨?_, ?_, ?_⟩
  · intro b hs
    have hfresh := register_success_fresh B ctx w b hs
    obtain ⟨ho, hw⟩ := register_of_fresh B ctx w b hfresh
    refine ⟨registeredUser B ctx (w.selected ctx) b, ?_, rfl, rfl, ?_⟩
    · rw [hw]
      exact registeredUser_mem ctx ctx w _ rfl
    · rw [ho]
      rfl
  · intro b hs
    obtain ⟨u, hu, he, _, _, ho⟩ := login_success B ctx w b hs
    refine ⟨u, hu, he, ?_⟩
    rw [ho]
    rfl
  · intro email u hemail hfind
    have hu : u ∈ w.selected ctx := List.mem_of_find?_eq_some hfind
    refine ⟨?_, ?_, ?_, ?_⟩
    · by_cases hm : useMongo ctx = true
      · simp only [World.selected, hm, if_true] at hfind
        simp [forgotPassword, falsyString, hemail, hm, UserMongo.findOneEmail, hfind, jwtSign,
          oneHour]
      · simp only [World.selected, hm, Bool.false_eq_true, if_false] at hfind
        simp [forgotPassword, falsyString, hemail, hm, UserMock.findByEmail, hfind, jwtSign,
          oneHour]
    · intro now2 hlt
      simp [jwtVerify, hlt]
    · intro now2 hge
      have : ¬ now2 < ctx.now + 3600 := by omega
      simp [jwtVerify, this]
    · intro ctx2 newPassword hflag hsecret hpw
      have hu2 : u ∈ w.selected ctx2 := by
        simpa [World.selected, hflag] using hu
      constructor
      · intro hlt
        have hok : jwtVerify (Token.jws { userId := u._id, email := some u.email } ctx.now
            (ctx.now + 3600) (JWT_SECRET ctx.envSecret)) (JWT_SECRET ctx2.envSecret) ctx2.now =
            some { userId := u._id, email := some u.email } := by
          simp [jwtVerify, hsecret, hlt]
        exact (resetPassword_of_verified B ctx2 w _ newPassword _ u hpw hok hu2 rfl).1
      · intro hge
        have hbad : jwtVerify (Token.jws { userId := u._id, email := some u.email } ctx.now
            (ctx.now + 3600) (JWT_SECRET ctx.envSecret)) (JWT_SECRET ctx2.envSecret) ctx2.now =
            none := by
          have : ¬ ctx2.now < ctx.now + 3600 := by omega
          simp [jwtVerify, hsecret, this]
        exact resetPassword_of_unverified B ctx2 w _ newPassword (by simp) hpw hbad

/-- Alice found on the durable store at time 7: the token logged, accepted
at time 3606. -/
theorem token_payloads_and_windows_witness :
    (forgotPassword (ctxMongo 7 0) aliceWorld { email := some "a@x.com" }).logged =
        [("a@x.com", Token.jws ⟨⟨1⟩, some "a@x.com"⟩ 7 3607 "college_media_secret_key")] ∧
      (resetPassword refBcrypt (ctxMongo 3606 1) aliceWorld
        { token := some (Token.jws ⟨⟨1⟩, some "a@x.com"⟩ 7 3607 "college_media_secret_key"),
          newPassword := some "pw2" }).outcome =
        respond 200 true Data.null "Password has been reset successfully" :=
  ⟨((token_payloads_and_windows refBcrypt (ctxMongo 7 0) aliceWorld).2.2 "a@x.com" aliceUser
      (by decide) (by decide)).1,
    (((token_payloads_and_windows refBcrypt (ctxMongo 7 0) aliceWorld).2.2 "a@x.com" aliceUser
      (by decide) (by decide)).2.2.2 (ctxMongo 3606 1) "pw2" (by decide) (by decide)
      (by decide)).1 (by decide)⟩

/-! ### C4: the end-to-end credential lifecycle -/

/-- Login in terms of the selected collection, the same on both backends. -/
theorem login_eq (B : Bcrypt) (ctx : Ctx) (w : World) (b : LoginBody) :
    (login B ctx w b).world = w ∧
      (login B ctx w b).outcome =
        match (w.selected ctx).find? (fun v => decide (v.email = b.email)) with
        | none => invalidCredentials
        | some u =>
          if B.compare b.password u.password = true then
            respond 200 true
              (Data.loggedIn u._id u.username u.email u.firstName u.lastName u.profilePicture
                u.bio (jwtSign { userId := u._id, email := none } (JWT_SECRET ctx.envSecret)
                  sevenDays ctx.now))
              "Login successful"
          else invalidCredentials := by
  unfold login
  by_cases hm : useMongo ctx = true
  · simp only [hm, if_true, World.selected, UserMongo.findOneEmail, invalidCredentials]
    cases w.mongo.find? (fun v => decide (v.email = b.email)) with
    | none => exact ⟨rfl, rfl⟩
    | some u =>
      by_cases hc : B.compare b.password u.password = true
      · simp [hc]
      · simp [hc]
  · simp only [hm, Bool.false_eq_true, if_false, World.selected, UserMock.findByEmail,
      invalidCredentials]
    cases w.mock.find? (fun v => decide (v.email = b.email)) with
    | none => exact ⟨rfl, rfl⟩
    | some u =>
      by_cases hc : B.compare b.password u.password = true
      · simp [hc]
      · simp [hc]

/-- ForgotPassword on a non-empty email in terms of the selected collection. -/
theorem forgotPassword_eq (ctx : Ctx) (w : World) (email : String) (hemail : email ≠ "") :
    (forgotPassword ctx w { email := some email }).world = w ∧
      (forgotPassword ctx w { email := some email }).outcome =
        respond 200 true Data.null
          "If an account exists with this email, a password reset link has been sent." ∧
      (forgotPassword ctx w { email := some email }).logged =
        match (w.selected ctx).find? (fun v => decide (v.email = email)) with
        | some u => [(email, jwtSign { userId := u._id, email := some u.email }
            (JWT_SECRET ctx.envSecret) oneHour ctx.now)]
        | none => [] := by
  by_cases hm : useMongo ctx = true
  · simp [forgotPassword, falsyString, hemail, hm, World.selected, UserMongo.findOneEmail]
  · simp [forgotPassword, falsyString, hemail, hm, World.selected, UserMock.findByEmail]

/-- The selected collection after a password update. -/
theorem worldWithPassword_selected (ctx ctx2 : Ctx) (w : World) (id : UserId) (digest : String)
    (hsame : useMongo ctx2 = useMongo ctx) :
    (worldWithPassword ctx w id digest).selected ctx2 =
      setPasswordById (w.selected ctx) id digest := by
  by_cases hm : useMongo ctx = true
  · simp [worldWithPassword, World.selected, hm, hsame]
  · simp [worldWithPassword, World.selected, hm, hsame]

/-- C4 (as amended). On either backend, with a hasher for which
`compare q (hash p salt)` holds exactly when `q = p`, starting from a store
with no user of the given username or email: for every username, every
non-empty email, every password, every wrong password different from it and
every non-empty new password different from it, Register succeeds; Login
succeeds and returns a token; Login with the wrong password fails with
"Invalid credentials"; ForgotPassword succeeds and the token it logs, given to
ResetPassword with the new password within the hour, succeeds; after that
Login with the old password fails and Login with the new password succeeds. -/
theorem lifecycle_ok (B : Bcrypt) (ctx : Ctx) (w : World) (t e : Nat → Nat)
    (fields : UserFields) (wrong pw2 : String)
    (hhash : ∀ (p q : String) (n : Nat),
      B.compare q (B.hash p (B.genSalt 10 n)) = decide (q = p))
    (hfresh : ∀ u ∈ w.selected ctx, u.email ≠ fields.email ∧ u.username ≠ fields.username)
    (hemail : fields.email ≠ "") (hpw2 : pw2 ≠ "")
    (hwrong : wrong ≠ fields.password) (hdistinct : pw2 ≠ fields.password)
    (hhour : t 5 < t 4 + oneHour) :
    (lifecycle B ctx w t e fields wrong pw2).ok = true := by
  have hfl : ∀ n m, useMongo (ctx.atTime n m) = useMongo ctx := fun _ _ => rfl
  obtain ⟨h1o, h1w⟩ := register_of_fresh B (ctx.atTime (t 1) (e 1)) w fields hfresh
  generalize hv : registeredUser B (ctx.atTime (t 1) (e 1))
    (w.selected (ctx.atTime (t 1) (e 1))) fields = v at h1w
  have hvid : v._id = freshId (w.selected ctx) := by rw [← hv]; rfl
  have hvemail : v.email = fields.email := by rw [← hv]; rfl
  have hvpw : v.password = B.hash fields.password (B.genSalt 10 (e 1)) := by rw [← hv]; rfl
  generalize hW1 : worldWithUser (ctx.atTime (t 1) (e 1)) w v = W1 at h1w
  have hsel1 : ∀ n m, W1.selected (ctx.atTime n m) = w.selected ctx ++ [v] := by
    intro n m
    rw [← hW1]
    exact worldWithUser_selected _ _ w v rfl
  have hfind1 : (w.selected ctx ++ [v]).find? (fun x => decide (x.email = fields.email)) =
      some v := find_email_append_last _ v fields.email (fun u hu => (hfresh u hu).1) hvemail
  -- Login with the right and the wrong password
  obtain ⟨h2w, h2o⟩ := login_eq B (ctx.atTime (t 2) (e 2)) W1 ⟨fields.email, fields.password⟩
  obtain ⟨h3w, h3o⟩ := login_eq B (ctx.atTime (t 3) (e 3)) W1 ⟨fields.email, wrong⟩
  simp only [hsel1, hfind1, hvpw, hhash, decide_True, if_true] at h2o
  simp only [hsel1, hfind1, hvpw, hhash, hwrong, decide_False, Bool.false_eq_true,
    if_false] at h3o
  -- ForgotPassword
  obtain ⟨h4w, h4o, h4l⟩ := forgotPassword_eq (ctx.atTime (t 4) (e 4)) W1 fields.email hemail
  simp only [hsel1, hfind1] at h4l
  -- ResetPassword
  have hok : jwtVerify (jwtSign { userId := v._id, email := some v.email }
      (JWT_SECRET (ctx.atTime (t 4) (e 4)).envSecret) oneHour (ctx.atTime (t 4) (e 4)).now)
      (JWT_SECRET (ctx.atTime (t 5) (e 5)).envSecret) (ctx.atTime (t 5) (e 5)).now =
      some { userId := v._id, email := some v.email } := by
    have : (ctx.atTime (t 5) (e 5)).now < (ctx.atTime (t 4) (e 4)).now + oneHour := hhour
    have hs : (ctx.atTime (t 5) (e 5)).envSecret = (ctx.atTime (t 4) (e 4)).envSecret := rfl
    rw [hs, jwtVerify_jwtSign, if_pos this]
  have hmem : v ∈ W1.selected (ctx.atTime (t 5) (e 5)) := by
    rw [hsel1]
    simp
  obtain ⟨h5o, h5w⟩ := resetPassword_of_verified B (ctx.atTime (t 5) (e 5)) W1 _ pw2 _ v hpw2
    hok hmem rfl
  generalize hW2 : worldWithPassword (ctx.atTime (t 5) (e 5)) W1
    ({ userId := v._id, email := some v.email } : Payload).userId
    (B.hash pw2 (B.genSalt 10 (ctx.atTime (t 5) (e 5)).entropy)) = W2 at h5w
  have hsel2 : ∀ n m, W2.selected (ctx.atTime n m) =
      w.selected ctx ++ [{ v with password := B.hash pw2 (B.genSalt 10 (e 5)) }] := by
    intro n m
    rw [← hW2, worldWithPassword_selected (ctx.atTime (t 5) (e 5)) (ctx.atTime n m) W1 _ _ rfl,
      hsel1]
    exact setPasswordById_append_last _ v _
      (fun u hu => by rw [hvid]; exact freshId_ne _ u hu)
  have hfind2 : (w.selected ctx ++ [{ v with password := B.hash pw2 (B.genSalt 10 (e 5)) }]).find?
      (fun x => decide (x.email = fields.email)) =
      some { v with password := B.hash pw2 (B.genSalt 10 (e 5)) } :=
    find_email_append_last _ _ fields.email (fun u hu => (hfresh u hu).1) hvemail
  -- Login with the old and the new password
  obtain ⟨h6w, h6o⟩ := login_eq B (ctx.atTime (t 6) (e 6)) W2 ⟨fields.email, fields.password⟩
  obtain ⟨h7w, h7o⟩ := login_eq B (ctx.atTime (t 7) (e 7)) W2 ⟨fields.email, pw2⟩
  simp only [hsel2, hfind2, hhash, Ne.symm hdistinct, decide_False, Bool.false_eq_true,
    if_false] at h6o
  simp only [hsel2, hfind2, hhash, decide_True, if_true] at h7o
  -- assemble
  simp only [lifecycle, Lifecycle.ok, h1o, h1w, h2o, h2w, h3o, h3w, h4o, h4w, h4l,
    List.head?_cons, Option.map_some', h5o, h5w, h6o, h6w, h7o]
  simp [isCreated, isLoggedIn, isSuccess, respond, invalidCredentials, Data.tokens]

/-- Dropping the salt letters in front of the separator. -/
theorem dropWhile_replicate_append (n : Nat) (c : Char) (l : List Char) (hc : c ≠ '#') :
    (List.replicate n c ++ l).dropWhile (fun x => decide (x ≠ '#')) =
      l.dropWhile (fun x => decide (x ≠ '#')) := by
  induction n with
  | zero => rfl
  | succ k ih =>
    simp only [List.replicate_succ, List.cons_append]
    rw [List.dropWhile_cons]
    simp [hc, ih]

/-- The reference hasher verifies exactly the plaintext that was hashed. -/
theorem refBcrypt_compare_hash (p q : String) (n : Nat) :
    refBcrypt.compare q (refBcrypt.hash p (refBcrypt.genSalt 10 n)) = decide (q = p) := by
  have hd : ((List.replicate 10 'r' ++ List.replicate n 's') ++ '#' :: p.data).dropWhile
      (fun x => decide (x ≠ '#')) = '#' :: p.data := by
    rw [List.append_assoc, dropWhile_replicate_append 10 'r' _ (by decide),
      dropWhile_replicate_append n 's' _ (by decide)]
    simp [List.dropWhile_cons]
  show decide (((List.replicate 10 'r' ++ List.replicate n 's') ++ '#' :: p.data).dropWhile
      (fun x => decide (x ≠ '#')) = '#' :: q.data) = decide (q = p)
  rw [hd]
  by_cases h : q = p
  · subst h
    simp
  · have : ¬ p.data = q.data := fun hpq => h (String.ext hpq.symm)
    simp [h, this]

/-- The end-to-end example of the specification, on the durable store. -/
theorem lifecycle_ok_witness :
    (lifecycle refBcrypt (ctxMongo 0 0) emptyWorld (fun i => 10 * i) (fun i => i) aliceFields
      "wrong" "pw2").ok = true :=
  lifecycle_ok refBcrypt (ctxMongo 0 0) emptyWorld (fun i => 10 * i) (fun i => i) aliceFields
    "wrong" "pw2" refBcrypt_compare_hash (by decide) (by decide) (by decide) (by decide)
    (by decide) (by decide)

/-- C4 as stated fails for the pair of distinct passwords `"pw1"` and `""`:
ResetPassword with the logged token and the empty new password answers 400
"Token and new password are required", and Login with the old password
still succeeds afterwards. It fails for the empty email too: ForgotPassword
answers 400 "Email is required". -/
theorem lifecycle_empty_new_password_fails :
    (lifecycle refBcrypt (ctxMongo 0 0) emptyWorld (fun i => 10 * i) (fun i => i) aliceFields
        "wrong" "").ok = false ∧
      (lifecycle refBcrypt (ctxMongo 0 0) emptyWorld (fun i => 10 * i) (fun i => i) aliceFields
        "wrong" "").reset.outcome =
        respond 400 false Data.null "Token and new password are required" ∧
      isLoggedIn (lifecycle refBcrypt (ctxMongo 0 0) emptyWorld (fun i => 10 * i) (fun i => i)
        aliceFields "wrong" "").loginOld.outcome = true ∧
      (lifecycle refBcrypt (ctxMock 0 0) emptyWorld (fun i => 10 * i) (fun i => i) aliceFields
        "wrong" "").ok = false ∧
      (lifecycle refBcrypt (ctxMongo 0 0) emptyWorld (fun i => 10 * i) (fun i => i)
        { aliceFields with email := "" } "wrong" "pw2").forgot.outcome =
        respond 400 false Data.null "Email is required" := by
  decide

end CollegeMedia
